import Mathlib

/-!
Verification of the core invariants of the game-activity OpenGL renderer
(`Renderer.cpp`, `Shader.cpp`), via a shallow embedding.

Modelling conventions:
* C `float` values are modelled as exact rationals (`ℚ`); the float literals
  `0.0001f`, `0.00001f`, `2.5f`, `1.25f`, `0.1f`, `2.f` become the exact
  rationals `1/10000`, `1/100000`, `5/2`, `5/4`, `1/10`, `2`.
* `EGLint` dimensions are modelled as `Int`.
* GPU texture resources (`TextureAsset`) are modelled by their numeric GL
  handle (`Nat`); a `std::shared_ptr<TextureAsset>` becomes `Option Nat`
  (`none` = `nullptr`), and two shared handles reference the identical
  underlying resource exactly when the handles are equal.
* The external asset loader (`TextureAsset::loadAsset`) is an oracle
  `String → Option Nat`; availability of the asset manager
  (`app_ && app_->activity && app_->activity->assetManager`) is a `Bool`.
* The `std::unordered_map` texture cache becomes an association list with
  first-match lookup; keys are unique along every reachable execution.
* GL / EGL side effects are recorded as explicit event traces.
-/

namespace App

/-- A 3-component position vector (`struct Vector3`). -/
structure Vector3 where
  x : ℚ
  y : ℚ
  z : ℚ
deriving DecidableEq

/-- A 2-component texture coordinate (`struct Vector2`). -/
structure Vector2 where
  u : ℚ
  v : ℚ
deriving DecidableEq

/-- A vertex: position plus UV (`struct Vertex`). -/
structure Vertex where
  position : Vector3
  uv : Vector2
deriving DecidableEq

/-- Vertex indices (`typedef ... Index`, GL_UNSIGNED_SHORT in the draw call). -/
abbrev Index := Nat

/-- A drawable model (`class Model`): vertices, triangle-list indices, and an
optional shared texture reference (`none` models a null `shared_ptr`). -/
structure Model where
  vertices : List Vertex
  indices : List Index
  texture : Option Nat
deriving DecidableEq

/-- The full `Renderer` state that the verified claims touch. -/
structure Renderer where
  width_ : Int
  height_ : Int
  shaderNeedsNewProjectionMatrix_ : Bool
  viewport : Int × Int
  models_ : List Model
  modelsRed_ : List Model
  textureCache_ : List (String × Nat)
  counter : ℚ
  display_ : Option Nat
  context_ : Option Nat
  surface_ : Option Nat
deriving DecidableEq

namespace Renderer

/-- Result of one `Renderer::getOrLoadTexture` call: the returned shared
handle, the cache afterwards, and the keys passed to `TextureAsset::loadAsset`
during the call. -/
structure GetOrLoadResult where
  result : Option Nat
  cache : List (String × Nat)
  loaderCalls : List String
deriving DecidableEq

/-- `Renderer::getOrLoadTexture` (Renderer.cpp:308-332): on a cache hit return
the cached shared handle; otherwise, if the asset manager is unavailable
return null; otherwise call the loader once, caching the result on success. -/
def getOrLoadTexture (amOk : Bool) (loader : String → Option Nat)
    (cache : List (String × Nat)) (assetPath : String) : GetOrLoadResult :=
  match cache.lookup assetPath with
  | some tex => ⟨some tex, cache, []⟩
  | none =>
    if !amOk then ⟨none, cache, []⟩
    else
      match loader assetPath with
      | some newTexture => ⟨some newTexture, (assetPath, newTexture) :: cache, [assetPath]⟩
      | none => ⟨none, cache, [assetPath]⟩

/-- A sequence of `getOrLoadTexture` requests threaded through the cache,
returning the final cache and the concatenated loader-call trace. -/
def runRequests (amOk : Bool) (loader : String → Option Nat) :
    List String → List (String × Nat) → List (String × Nat) × List String
  | [], cache => (cache, [])
  | r :: rs, cache =>
    let res := getOrLoadTexture amOk loader cache r
    let rest := runRequests amOk loader rs res.cache
    (rest.1, res.loaderCalls ++ rest.2)

end Renderer


/-- The GPU objects `Shader::loadShader` may allocate. -/
inductive GLObj where
  | vertexStage
  | fragmentStage
  | programObj
deriving DecidableEq

/-- Oracle for the outcomes of the GL calls issued by `Shader::loadShader`:
whether `glCreateShader` returns a nonzero handle for each stage, whether the
stage compiles, whether `glCreateProgram` returns a nonzero handle, whether
linking succeeds, and the attribute/uniform locations reported by name
(`-1` = not found). -/
structure GLEnv where
  createVertexOk : Bool
  compileVertexOk : Bool
  createFragmentOk : Bool
  compileFragmentOk : Bool
  createProgramOk : Bool
  linkOk : Bool
  attribLoc : String → Int
  uniformLoc : String → Int

/-- A constructed shader program (`class Shader`): the linked program object
and the resolved locations. -/
structure Shader where
  program_ : GLObj
  position_ : Int
  uv_ : Int
  projectionMatrix_ : Int
deriving DecidableEq

namespace Shader

/-- Result of compiling one stage via `Shader::loadShader(GLenum, string)`
(Shader.cpp:98-127): success flag plus the stage objects created and deleted
during the call (a stage that fails to compile is deleted inside the call;
a failed `glCreateShader` creates nothing). -/
structure StageResult where
  ok : Bool
  created : List GLObj
  deleted : List GLObj
deriving DecidableEq

/-- `Shader::loadShader(GLenum shaderType, ...)` (Shader.cpp:98-127). -/
def loadShaderStage (createOk compileOk : Bool) (tag : GLObj) : StageResult :=
  if createOk then
    if compileOk then ⟨true, [tag], []⟩
    else ⟨false, [tag], [tag]⟩
  else ⟨false, [], []⟩

/-- Result of `Shader::loadShader` (the five-argument overload): the shader
returned to the caller (`none` = `nullptr`) plus the GPU objects created and
deleted over the whole call, in order. -/
structure LoadShaderResult where
  shader : Option Shader
  created : List GLObj
  deleted : List GLObj
deriving DecidableEq

/-- `Shader::loadShader` (Shader.cpp:7-96), path by path:
vertex-stage failure aborts; fragment-stage failure deletes the vertex stage
and aborts; a zero program handle skips the link block and falls through to
the final stage deletions; link failure deletes the program and falls through
to the final stage deletions; a missing position attribute or projection
uniform deletes the program and returns early (skipping the final
`glDeleteShader` calls at lines 93-94, exactly as the source does); on success
the stages are deleted at lines 93-94 and the program is kept. -/
def loadShader (env : GLEnv)
    (positionAttributeName uvAttributeName projectionMatrixUniformName : String) :
    LoadShaderResult :=
  let vs := loadShaderStage env.createVertexOk env.compileVertexOk .vertexStage
  if !vs.ok then ⟨none, vs.created, vs.deleted⟩
  else
    let fs := loadShaderStage env.createFragmentOk env.compileFragmentOk .fragmentStage
    if !fs.ok then
      ⟨none, vs.created ++ fs.created, fs.deleted ++ [.vertexStage]⟩
    else
      if env.createProgramOk then
        if !env.linkOk then
          ⟨none, vs.created ++ fs.created ++ [.programObj],
            [.programObj, .vertexStage, .fragmentStage]⟩
        else
          let positionAttribute := env.attribLoc positionAttributeName
          if positionAttribute = -1 then
            ⟨none, vs.created ++ fs.created ++ [.programObj], [.programObj]⟩
          else
            let uvAttribute :=
              if uvAttributeName.isEmpty then -1 else env.attribLoc uvAttributeName
            let projectionMatrixUniform := env.uniformLoc projectionMatrixUniformName
            if projectionMatrixUniform = -1 then
              ⟨none, vs.created ++ fs.created ++ [.programObj], [.programObj]⟩
            else
              if positionAttribute ≠ -1 ∧ projectionMatrixUniform ≠ -1 then
                ⟨some ⟨.programObj, positionAttribute, uvAttribute, projectionMatrixUniform⟩,
                  vs.created ++ fs.created ++ [.programObj],
                  [.vertexStage, .fragmentStage]⟩
              else
                ⟨none, vs.created ++ fs.created ++ [.programObj],
                  [.programObj, .vertexStage, .fragmentStage]⟩
      else
        ⟨none, vs.created ++ fs.created, [.vertexStage, .fragmentStage]⟩

/-- The GL commands `Shader::drawModel` can issue, in order. -/
inductive DrawCmd where
  | vertexAttribPointerPosition (loc : Int)
  | vertexAttribPointerUV (loc : Int)
  | enableVertexAttribArray (loc : Int)
  | activeTexture0
  | bindTexture (textureID : Nat)
  | drawElements (indexCount : Nat)
  | disableVertexAttribArray (loc : Int)
deriving DecidableEq

/-- `Shader::drawModel` (Shader.cpp:137-175) as the trace of GL commands it
issues. When `uv_ != -1` the source calls `model.getTexture().getTextureID()`;
on a model whose texture reference is null that dereferences a null
`shared_ptr`, which is undefined behavior, modelled as `none`. -/
def drawModel (sh : Shader) (model : Model) : Option (List DrawCmd) :=
  if sh.uv_ ≠ -1 then
    match model.texture with
    | none => none
    | some textureID =>
      some [.vertexAttribPointerPosition sh.position_,
        .enableVertexAttribArray sh.position_,
        .vertexAttribPointerUV sh.uv_,
        .enableVertexAttribArray sh.uv_,
        .activeTexture0,
        .bindTexture textureID,
        .drawElements model.indices.length,
        .disableVertexAttribArray sh.uv_,
        .disableVertexAttribArray sh.position_]
  else
    some [.vertexAttribPointerPosition sh.position_,
      .enableVertexAttribArray sh.position_,
      .drawElements model.indices.length,
      .disableVertexAttribArray sh.position_]

end Shader


/-- `kProjectionHalfHeight` (Renderer.cpp:101). -/
def kProjectionHalfHeight : ℚ := 2

/-- `kProjectionNearPlane` (Renderer.cpp:107). -/
def kProjectionNearPlane : ℚ := -1

/-- `kProjectionFarPlane` (Renderer.cpp:113). -/
def kProjectionFarPlane : ℚ := 1

/-- Modelled from the spec: `Utility::buildOrthographicMatrix` (Utility.cpp is
not under `src/`). Spec section 4.3: "given half-height H, aspect ratio A,
near N, far F, produce a standard column-major orthographic projection mapping
x in [-H*A, H*A], y in [-H, H], z in [N, F] to normalized device coordinates,
with zero skew." -/
def buildOrthographicMatrix (halfHeight aspect near far : ℚ) : List ℚ :=
  [1 / (halfHeight * aspect), 0, 0, 0,
   0, 1 / halfHeight, 0, 0,
   0, 0, -2 / (far - near), 0,
   0, 0, -(far + near) / (far - near), 1]

/-- The two shader programs owned by the Renderer: `shader_` (textured) and
`shaderRed_` (solid color). -/
inductive ShaderKind where
  | textured
  | solidRed
deriving DecidableEq

/-- The observable GL/EGL actions of one `Renderer::render` call. -/
inductive RenderEvent where
  | activate (k : ShaderKind)
  | setProjection (k : ShaderKind) (m : List ℚ)
  | deactivate (k : ShaderKind)
  | clearBuffers
  | draw (k : ShaderKind) (m : Model)
  | swapBuffers
deriving DecidableEq

/-- Whether a render event is the `glClear` call. -/
def RenderEvent.isClearBuffers : RenderEvent → Bool
  | .clearBuffers => true
  | _ => false

/-- Extracts a draw submission from a render event, if it is one. -/
def RenderEvent.drawOf : RenderEvent → Option (ShaderKind × Model)
  | .draw k m => some (k, m)
  | _ => none

/-- Whether a render event uploads a projection matrix. -/
def RenderEvent.isSetProjection : RenderEvent → Bool
  | .setProjection _ _ => true
  | _ => false

namespace Renderer

/-- `Renderer::updateRenderArea` (Renderer.cpp:291-306), with the surface
dimensions reported by `eglQuerySurface` passed in as `w`, `h`. -/
def updateRenderArea (s : Renderer) (w h : Int) : Renderer :=
  if w ≠ s.width_ ∨ h ≠ s.height_ then
    { s with width_ := w, height_ := h, viewport := (w, h),
             shaderNeedsNewProjectionMatrix_ := true }
  else s

/-- The projection-rebuild step of `Renderer::render` (Renderer.cpp:140-164):
when the flag is set, build the orthographic matrix from the cached
dimensions, upload it to both programs (activating and deactivating each,
textured program first), and clear the flag. -/
def renderProjectionPhase (s : Renderer) : Renderer × List RenderEvent :=
  if s.shaderNeedsNewProjectionMatrix_ then
    let projectionMatrix := buildOrthographicMatrix kProjectionHalfHeight
      ((s.width_ : ℚ) / (s.height_ : ℚ)) kProjectionNearPlane kProjectionFarPlane
    ({ s with shaderNeedsNewProjectionMatrix_ := false },
      [.activate .textured, .setProjection .textured projectionMatrix,
       .deactivate .textured,
       .activate .solidRed, .setProjection .solidRed projectionMatrix,
       .deactivate .solidRed])
  else (s, [])

/-- The draw loop of `Renderer::render` (Renderer.cpp:169-183): the solid-color
list first, then the textured list, each in list order and only when
non-empty. -/
def renderDrawPhase (s : Renderer) : List RenderEvent :=
  (if s.modelsRed_.isEmpty then []
   else [.activate .solidRed]
     ++ s.modelsRed_.map (RenderEvent.draw .solidRed)
     ++ [.deactivate .solidRed])
  ++ (if s.models_.isEmpty then []
   else [.activate .textured]
     ++ s.models_.map (RenderEvent.draw .textured)
     ++ [.deactivate .textured])

/-- `Renderer::render` (Renderer.cpp:131-188): update the render area, rebuild
the projection if needed, clear, draw both lists, present. -/
def render (s : Renderer) (w h : Int) : Renderer × List RenderEvent :=
  let s1 := updateRenderArea s w h
  let proj := renderProjectionPhase s1
  (proj.1, proj.2 ++ [.clearBuffers] ++ renderDrawPhase proj.1 ++ [.swapBuffers])

end Renderer


/-- The quad indices `{0, 1, 2, 0, 2, 3}` used by every quad in the source. -/
def quadIndices : List Index := [0, 1, 2, 0, 2, 3]

/-- The demo-quad vertices of `Renderer::createModels` (Renderer.cpp:347-352),
at depth `counter`. -/
def demoVertices (counter : ℚ) : List Vertex :=
  [⟨⟨1, 1, counter⟩, ⟨0, 0⟩⟩,
   ⟨⟨-1, 1, counter⟩, ⟨1, 0⟩⟩,
   ⟨⟨-1, -1, counter⟩, ⟨1, 1⟩⟩,
   ⟨⟨1, -1, counter⟩, ⟨0, 1⟩⟩]

/-- The background-quad vertices of `Renderer::createBackground`
(Renderer.cpp:384-390). -/
def backgroundVertices : List Vertex :=
  [⟨⟨5/4, 2, 0⟩, ⟨0, 0⟩⟩,
   ⟨⟨-5/4, 2, 0⟩, ⟨0, 0⟩⟩,
   ⟨⟨-5/4, -2, 0⟩, ⟨0, 0⟩⟩,
   ⟨⟨5/4, -2, 0⟩, ⟨0, 0⟩⟩]

/-- The robot-quad vertices of `Renderer::drawRobotInPosition`
(Renderer.cpp:405-410): a quad of half-side `0.1` centered at `(x, y)` at
depth `z`. -/
def robotVertices (x y z : ℚ) : List Vertex :=
  [⟨⟨x + 1/10, y + 1/10, z⟩, ⟨0, 0⟩⟩,
   ⟨⟨x - 1/10, y + 1/10, z⟩, ⟨1, 0⟩⟩,
   ⟨⟨x - 1/10, y - 1/10, z⟩, ⟨1, 1⟩⟩,
   ⟨⟨x + 1/10, y - 1/10, z⟩, ⟨0, 1⟩⟩]

/-- The depth a quad model was created at: the z component of its first
vertex (all quads in the source give every vertex the same z). -/
def modelDepth (m : Model) : ℚ :=
  match m.vertices with
  | v :: _ => v.position.z
  | [] => 0

/-- The x coordinate of a model's world-space center (mean of its vertices). -/
def modelCenterX (m : Model) : ℚ :=
  (m.vertices.map fun v => v.position.x).sum / m.vertices.length

/-- The y coordinate of a model's world-space center (mean of its vertices). -/
def modelCenterY (m : Model) : ℚ :=
  (m.vertices.map fun v => v.position.y).sum / m.vertices.length

/-- The x part of the pixel-to-world mapping at Renderer.cpp:454:
`2.5f*x/float(width_)-1.25f`. -/
def screenToWorldX (width : Int) (x : ℚ) : ℚ :=
  5/2 * x / (width : ℚ) - 5/4

/-- The y part of the pixel-to-world mapping at Renderer.cpp:454:
`-4.f*y/float(height_)+2.0f`. -/
def screenToWorldY (height : Int) (y : ℚ) : ℚ :=
  -4 * y / (height : ℚ) + 2

namespace Renderer

/-- `Renderer::createModels` (Renderer.cpp:338-368): fetch the robot texture
through the cache; if the fetch succeeded, append a demo model; then append a
second demo model unconditionally, with whatever handle the fetch returned
(possibly null) — exactly as the source does. -/
def createModels (amOk : Bool) (loader : String → Option Nat) (s : Renderer) :
    Renderer :=
  let vertices := demoVertices s.counter
  let res := getOrLoadTexture amOk loader s.textureCache_ "android_robot.png"
  let s1 := { s with textureCache_ := res.cache }
  let s2 :=
    match res.result with
    | some _ => { s1 with models_ := s1.models_ ++ [Model.mk vertices quadIndices res.result] }
    | none => s1
  { s2 with models_ := s2.models_ ++ [Model.mk vertices quadIndices res.result] }

/-- `Renderer::createBackground` (Renderer.cpp:371-401): append the background
quad, with a null texture reference, to the solid-color list. -/
def createBackground (s : Renderer) : Renderer :=
  { s with modelsRed_ := s.modelsRed_ ++ [Model.mk backgroundVertices quadIndices none] }

/-- `Renderer::drawRobotInPosition` (Renderer.cpp:403-423): fetch the robot
texture through the cache; on success append a robot quad centered at
`(x, y)` at depth `z` to the textured list; on failure only log. -/
def drawRobotInPosition (amOk : Bool) (loader : String → Option Nat)
    (s : Renderer) (x y z : ℚ) : Renderer :=
  let res := getOrLoadTexture amOk loader s.textureCache_ "android_robot.png"
  let s1 := { s with textureCache_ := res.cache }
  match res.result with
  | some _ =>
    { s1 with models_ := s1.models_ ++ [Model.mk (robotVertices x y z) quadIndices res.result] }
  | none => s1

/-- The model-creation tail of `Renderer::initRenderer` (Renderer.cpp:284-288):
`counter = 0.0001f; createModels(); createBackground(); counter += 0.00001f;`. -/
def initRendererModels (amOk : Bool) (loader : String → Option Nat)
    (s : Renderer) : Renderer :=
  let s1 := createBackground (createModels amOk loader { s with counter := 1/10000 })
  { s1 with counter := s1.counter + 1/100000 }

end Renderer

/-- The decoded `action & AMOTION_EVENT_ACTION_MASK` of a motion event. -/
inductive MotionAction where
  | down
  | pointerDown
  | cancel
  | up
  | pointerUp
  | move
  | unknown (code : Int)
deriving DecidableEq

/-- Whether a motion action takes the `ACTION_DOWN` / `ACTION_POINTER_DOWN`
branch of the switch at Renderer.cpp:449-456. -/
def MotionAction.isDown : MotionAction → Bool
  | .down => true
  | .pointerDown => true
  | _ => false

/-- One motion event: its decoded action and the pointer position in surface
pixels. -/
structure MotionEvent where
  action : MotionAction
  x : ℚ
  y : ℚ
deriving DecidableEq

/-- One key event (observed for diagnostics only). -/
structure KeyEvent where
  action : Int
  keyCode : Int
deriving DecidableEq

/-- The per-frame input buffer returned by `android_app_swap_input_buffers`. -/
structure InputBuffer where
  motionEvents : List MotionEvent
  keyEvents : List KeyEvent
deriving DecidableEq

namespace Renderer

/-- One iteration of the motion-event loop of `Renderer::handleInput`
(Renderer.cpp:434-487): a down event creates a robot at the mapped world
position at depth `counter` and then advances the counter; every other action
only logs. -/
def motionStep (amOk : Bool) (loader : String → Option Nat)
    (s : Renderer) (ev : MotionEvent) : Renderer :=
  match ev.action with
  | .down | .pointerDown =>
    let s1 := drawRobotInPosition amOk loader s
      (screenToWorldX s.width_ ev.x) (screenToWorldY s.height_ ev.y) s.counter
    { s1 with counter := s1.counter + 1/100000 }
  | _ => s

/-- `Renderer::handleInput` (Renderer.cpp:425-513): a null input buffer
returns immediately; otherwise process every motion event in order (the key
loop only logs and mutates no Renderer state). -/
def handleInput (amOk : Bool) (loader : String → Option Nat)
    (s : Renderer) (inputBuffer : Option InputBuffer) : Renderer :=
  match inputBuffer with
  | none => s
  | some buf =>
    let s1 := buf.motionEvents.foldl (motionStep amOk loader) s
    buf.keyEvents.foldl (fun st _ => st) s1

/-- A run: `handleInput` once per frame over a sequence of input buffers. -/
def runFrames (amOk : Bool) (loader : String → Option Nat)
    (s : Renderer) (bufs : List (Option InputBuffer)) : Renderer :=
  bufs.foldl (handleInput amOk loader) s

end Renderer

/-- The observable EGL actions of `Renderer::~Renderer`. -/
inductive EglEvent where
  | makeCurrentNoContext
  | destroyContext (c : Nat)
  | destroySurface (h : Nat)
  | terminateDisplay (d : Nat)
deriving DecidableEq

namespace Renderer

/-- `Renderer::~Renderer` (Renderer.cpp:115-129): when the display is live,
unbind the context, destroy the context if live, destroy the surface if live,
terminate the display; each destroyed handle is reset to its null sentinel. -/
def destructor (s : Renderer) : Renderer × List EglEvent :=
  match s.display_ with
  | none => (s, [])
  | some d =>
    let ctx : List EglEvent × Renderer :=
      match s.context_ with
      | some c => ([.destroyContext c], { s with context_ := none })
      | none => ([], s)
    let surf : List EglEvent × Renderer :=
      match ctx.2.surface_ with
      | some h => ([.destroySurface h], { ctx.2 with surface_ := none })
      | none => ([], ctx.2)
    ({ surf.2 with display_ := none },
      .makeCurrentNoContext :: ctx.1 ++ surf.1 ++ [.terminateDisplay d])

end Renderer


/-- A loader oracle that fails on every key. -/
def failingLoader : String → Option Nat := fun _ => none

/-- A loader oracle that succeeds on every key, returning GL handle 7. -/
def constantLoader : String → Option Nat := fun _ => some 7

/-- A concrete renderer state: a live 100 x 100 surface, empty model lists,
empty cache, counter as set at the top of `initRenderer`. -/
def baseRenderer : Renderer :=
  { width_ := 100, height_ := 100, shaderNeedsNewProjectionMatrix_ := false,
    viewport := (100, 100), models_ := [], modelsRed_ := [], textureCache_ := [],
    counter := 1/10000, display_ := some 1, context_ := some 2, surface_ := some 3 }

/-- A GL environment in which both stages compile, the program links, the
position attribute resolves to 0, every other attribute to 1, and every
uniform to 0. -/
def happyGLEnv : GLEnv :=
  { createVertexOk := true, compileVertexOk := true, createFragmentOk := true,
    compileFragmentOk := true, createProgramOk := true, linkOk := true,
    attribLoc := fun n => if n = "inPosition" then 0 else 1,
    uniformLoc := fun _ => 0 }

/-- Like `happyGLEnv`, except no attribute resolves: `glGetAttribLocation`
returns `-1` for every name. -/
def missingPositionGLEnv : GLEnv :=
  { happyGLEnv with attribLoc := fun _ => -1 }

/-- `baseRenderer` with one background model in the solid-color list and one
demo model in the textured list. -/
def twoModelRenderer : Renderer :=
  { baseRenderer with
    models_ := [Model.mk (demoVertices 0) quadIndices (some 7)],
    modelsRed_ := [Model.mk backgroundVertices quadIndices none] }


/-- Claim C10: if the per-frame input buffer is unavailable (the swap returns
null), `handleInput` returns immediately without modifying any renderer
state: both model lists, the texture cache and the depth counter are all
unchanged. -/
theorem C10_null_input_buffer_is_noop
    (amOk : Bool) (loader : String → Option Nat) (s : Renderer) :
    Renderer.handleInput amOk loader s none = s := rfl

/-- Claim C2 (code bug): on the missing-position-attribute failure path of
`Shader::loadShader`, the caller does receive null, but the early
`return nullptr` at Shader.cpp:56 skips the `glDeleteShader` calls at
Shader.cpp:93-94, so the two compiled shader-stage objects are created and
never deleted — contradicting the claim (and the comment at Shader.cpp:92)
that the stage objects are always released after program creation. The same
happens on the missing-projection-uniform path (Shader.cpp:73). -/
theorem C2_loadShader_leaks_stages_on_missing_position :
    (Shader.loadShader missingPositionGLEnv "inPosition" "inUV" "uProjection").shader = none
    ∧ (Shader.loadShader missingPositionGLEnv "inPosition" "inUV" "uProjection").created
        = [GLObj.vertexStage, GLObj.fragmentStage, GLObj.programObj]
    ∧ (Shader.loadShader missingPositionGLEnv "inPosition" "inUV" "uProjection").deleted
        = [GLObj.programObj]
    ∧ GLObj.vertexStage ∉
        (Shader.loadShader missingPositionGLEnv "inPosition" "inUV" "uProjection").deleted
    ∧ GLObj.fragmentStage ∉
        (Shader.loadShader missingPositionGLEnv "inPosition" "inUV" "uProjection").deleted := by
  decide

/-- Claim C3 (code bug): when the texture fetch through the cache fails
during `Renderer::createModels`, the unconditional `emplace_back` at
Renderer.cpp:367 still appends a model holding a null texture reference to
the textured list `models_` — and drawing such a model through a
texture-sampling program dereferences a null shared handle in
`Shader::drawModel` (undefined behavior, modelled as `none`). -/
theorem C3_createModels_appends_model_without_texture :
    (Renderer.createModels true failingLoader baseRenderer).models_
      = [Model.mk (demoVertices (1/10000)) quadIndices none]
    ∧ (Model.mk (demoVertices (1/10000)) quadIndices none).texture = none
    ∧ Shader.drawModel (Shader.mk GLObj.programObj 0 1 0)
        (Model.mk (demoVertices (1/10000)) quadIndices none) = none :=
  ⟨rfl, rfl, rfl⟩


/-- Claim C4: the UV attribute is optional. For any GL environment in which
both stages compile, the program links, and the required position attribute
and projection uniform resolve, constructing a program with an empty
UV-attribute name succeeds, its UV location is the "not present" sentinel
`-1`, and `drawModel` on such a program binds and enables only the position
attribute — its command trace contains no UV binding and no texture
binding. -/
theorem C4_uv_attribute_optional (env : GLEnv) (posName projName : String)
    (hcv : env.createVertexOk = true) (hxv : env.compileVertexOk = true)
    (hcf : env.createFragmentOk = true) (hxf : env.compileFragmentOk = true)
    (hcp : env.createProgramOk = true) (hl : env.linkOk = true)
    (hpos : env.attribLoc posName ≠ -1) (hproj : env.uniformLoc projName ≠ -1) :
    ∃ sh : Shader,
      (Shader.loadShader env posName "" projName).shader = some sh
      ∧ sh.uv_ = -1
      ∧ sh.position_ = env.attribLoc posName
      ∧ ∀ m : Model, Shader.drawModel sh m
          = some [Shader.DrawCmd.vertexAttribPointerPosition sh.position_,
                  Shader.DrawCmd.enableVertexAttribArray sh.position_,
                  Shader.DrawCmd.drawElements m.indices.length,
                  Shader.DrawCmd.disableVertexAttribArray sh.position_] := by
  refine ⟨⟨GLObj.programObj, env.attribLoc posName, -1, env.uniformLoc projName⟩, ?_, rfl, rfl, ?_⟩
  · have hemp : "".isEmpty = true := by decide
    simp [Shader.loadShader, Shader.loadShaderStage, hcv, hxv, hcf, hxf, hcp, hl, hpos, hproj,
      hemp]
  · intro m
    simp [Shader.drawModel]

/-- Witness for C4: the solid-red program of `initRenderer`
(`Shader::loadShader(vertexRed, fragmentSolidRed, "inPosition", "", "uProjection")`)
in the all-success GL environment. -/
theorem C4_uv_attribute_optional_witness :
    (happyGLEnv.attribLoc "inPosition" ≠ -1) ∧ (happyGLEnv.uniformLoc "uProjection" ≠ -1) ∧
    ∃ sh : Shader,
      (Shader.loadShader happyGLEnv "inPosition" "" "uProjection").shader = some sh
      ∧ sh.uv_ = -1
      ∧ sh.position_ = happyGLEnv.attribLoc "inPosition"
      ∧ ∀ m : Model, Shader.drawModel sh m
          = some [Shader.DrawCmd.vertexAttribPointerPosition sh.position_,
                  Shader.DrawCmd.enableVertexAttribArray sh.position_,
                  Shader.DrawCmd.drawElements m.indices.length,
                  Shader.DrawCmd.disableVertexAttribArray sh.position_] :=
  ⟨by decide, by decide,
    C4_uv_attribute_optional happyGLEnv "inPosition" "uProjection"
      rfl rfl rfl rfl rfl rfl (by decide) (by decide)⟩

/-- Claim C5: resize handling is idempotent. Calling `updateRenderArea` twice
in a row with unchanged queried surface dimensions is a no-op the second
time; the rebuild flag is set exactly when the dimensions differ from the
cached values or it was already set; `render` emits projection uploads (to
both programs, activating and deactivating each) exactly when the flag was
set after the update, using the orthographic matrix built from the updated
dimensions; and after `render` the flag is always clear. -/
theorem C5_resize_idempotence (s : Renderer) (w h : Int) :
    Renderer.updateRenderArea (Renderer.updateRenderArea s w h) w h
        = Renderer.updateRenderArea s w h
    ∧ ((Renderer.updateRenderArea s w h).shaderNeedsNewProjectionMatrix_ = true
        ↔ w ≠ s.width_ ∨ h ≠ s.height_ ∨ s.shaderNeedsNewProjectionMatrix_ = true)
    ∧ (Renderer.render s w h).2.takeWhile (fun e => !e.isClearBuffers)
        = (if (Renderer.updateRenderArea s w h).shaderNeedsNewProjectionMatrix_ then
            [RenderEvent.activate ShaderKind.textured,
             RenderEvent.setProjection ShaderKind.textured
               (buildOrthographicMatrix kProjectionHalfHeight
                 (((Renderer.updateRenderArea s w h).width_ : ℚ)
                   / ((Renderer.updateRenderArea s w h).height_ : ℚ))
                 kProjectionNearPlane kProjectionFarPlane),
             RenderEvent.deactivate ShaderKind.textured,
             RenderEvent.activate ShaderKind.solidRed,
             RenderEvent.setProjection ShaderKind.solidRed
               (buildOrthographicMatrix kProjectionHalfHeight
                 (((Renderer.updateRenderArea s w h).width_ : ℚ)
                   / ((Renderer.updateRenderArea s w h).height_ : ℚ))
                 kProjectionNearPlane kProjectionFarPlane),
             RenderEvent.deactivate ShaderKind.solidRed]
          else [])
    ∧ (Renderer.render s w h).1.shaderNeedsNewProjectionMatrix_ = false := by
  refine ⟨?_, ?_, ?_, ?_⟩
  · by_cases hc : w ≠ s.width_ ∨ h ≠ s.height_
    · simp [Renderer.updateRenderArea, hc]
    · simp [Renderer.updateRenderArea, hc]
  · by_cases hc : w ≠ s.width_ ∨ h ≠ s.height_
    · simp only [Renderer.updateRenderArea, if_pos hc]
      tauto
    · push_neg at hc
      simp [Renderer.updateRenderArea, hc.1, hc.2]
  · by_cases hf : (Renderer.updateRenderArea s w h).shaderNeedsNewProjectionMatrix_
    · simp [Renderer.render, Renderer.renderProjectionPhase, hf, List.takeWhile,
        RenderEvent.isClearBuffers]
    · simp [Renderer.render, Renderer.renderProjectionPhase, hf, List.takeWhile,
        RenderEvent.isClearBuffers]
  · by_cases hf : (Renderer.updateRenderArea s w h).shaderNeedsNewProjectionMatrix_
    · simp [Renderer.render, Renderer.renderProjectionPhase, hf]
    · simp [Renderer.render, Renderer.renderProjectionPhase, hf]

theorem updateRenderArea_models (s : Renderer) (w h : Int) :
    (Renderer.updateRenderArea s w h).models_ = s.models_
    ∧ (Renderer.updateRenderArea s w h).modelsRed_ = s.modelsRed_ := by
  unfold Renderer.updateRenderArea
  split <;> exact ⟨rfl, rfl⟩

theorem renderProjectionPhase_models (s : Renderer) :
    (Renderer.renderProjectionPhase s).1.models_ = s.models_
    ∧ (Renderer.renderProjectionPhase s).1.modelsRed_ = s.modelsRed_ := by
  unfold Renderer.renderProjectionPhase
  split <;> exact ⟨rfl, rfl⟩

theorem renderProjectionPhase_no_draws (s : Renderer) :
    (Renderer.renderProjectionPhase s).2.filterMap RenderEvent.drawOf = [] := by
  unfold Renderer.renderProjectionPhase
  split <;> simp [RenderEvent.drawOf]

theorem filterMap_drawOf_map (k : ShaderKind) (l : List Model) :
    List.filterMap (RenderEvent.drawOf ∘ RenderEvent.draw k) l
      = l.map (fun m => (k, m)) := by
  induction l with
  | nil => rfl
  | cons a t ih => simp [Function.comp, RenderEvent.drawOf, ih]

/-- Claim C6: in every frame, all models of the solid-color list are
submitted before any model of the textured list, and within each list models
are drawn in list order: the sequence of draw submissions of `render` is
exactly the solid-color list followed by the textured list. -/
theorem C6_draw_order (s : Renderer) (w h : Int)
    (hred : s.modelsRed_ ≠ []) (htex : s.models_ ≠ []) :
    (Renderer.render s w h).2.filterMap RenderEvent.drawOf
      = s.modelsRed_.map (fun m => (ShaderKind.solidRed, m))
        ++ s.models_.map (fun m => (ShaderKind.textured, m)) := by
  have h1 := updateRenderArea_models s w h
  have h2 := renderProjectionPhase_models (Renderer.updateRenderArea s w h)
  have hred2 : (Renderer.renderProjectionPhase (Renderer.updateRenderArea s w h)).1.modelsRed_
      = s.modelsRed_ := by rw [h2.2, h1.2]
  have htex2 : (Renderer.renderProjectionPhase (Renderer.updateRenderArea s w h)).1.models_
      = s.models_ := by rw [h2.1, h1.1]
  have h3 := renderProjectionPhase_no_draws (Renderer.updateRenderArea s w h)
  simp [Renderer.render, Renderer.renderDrawPhase, hred2, htex2, h3,
    List.filterMap_append, hred, htex, RenderEvent.drawOf, filterMap_drawOf_map]


/-- Witness for C6: one background model and one demo model. -/
theorem C6_draw_order_witness :
    twoModelRenderer.modelsRed_ ≠ []
    ∧ twoModelRenderer.models_ ≠ []
    ∧ (Renderer.render twoModelRenderer 100 100).2.filterMap RenderEvent.drawOf
        = [(ShaderKind.solidRed, Model.mk backgroundVertices quadIndices none),
           (ShaderKind.textured, Model.mk (demoVertices 0) quadIndices (some 7))] :=
  ⟨by simp [twoModelRenderer], by simp [twoModelRenderer], by
    have h := C6_draw_order twoModelRenderer 100 100
      (by simp [twoModelRenderer]) (by simp [twoModelRenderer])
    simpa [twoModelRenderer] using h⟩

/-- Claim C9: renderer teardown releases resources in dependency order —
context, then surface, then display — resets each released handle to its
null sentinel, skips handles that are already null, leaves all three handles
null afterwards, and is idempotent: running it again from the resulting
state does nothing. The hypothesis restricts to partial-teardown states
(a null display implies the context and surface were already released, which
holds along every teardown prefix of the source). -/
theorem C9_teardown (s : Renderer)
    (hreach : s.display_ = none → s.context_ = none ∧ s.surface_ = none) :
    (Renderer.destructor s).1.display_ = none
    ∧ (Renderer.destructor s).1.context_ = none
    ∧ (Renderer.destructor s).1.surface_ = none
    ∧ Renderer.destructor (Renderer.destructor s).1 = ((Renderer.destructor s).1, [])
    ∧ (Renderer.destructor s).2
        = (match s.display_ with
           | none => []
           | some d =>
             EglEvent.makeCurrentNoContext ::
               (s.context_.toList.map EglEvent.destroyContext
                 ++ s.surface_.toList.map EglEvent.destroySurface
                 ++ [EglEvent.terminateDisplay d])) := by
  cases hd : s.display_ with
  | none =>
    obtain ⟨hc, hs2⟩ := hreach hd
    simp [Renderer.destructor, hd, hc, hs2]
  | some d =>
    cases hc : s.context_ <;> cases hsf : s.surface_ <;>
      simp [Renderer.destructor, hd, hc, hsf]


/-- Witness for C9: tearing down a fully live renderer destroys the context,
then the surface, then terminates the display, and a second run is a no-op. -/
theorem C9_teardown_witness :
    (Renderer.destructor baseRenderer).1.display_ = none
    ∧ (Renderer.destructor baseRenderer).1.context_ = none
    ∧ (Renderer.destructor baseRenderer).1.surface_ = none
    ∧ Renderer.destructor (Renderer.destructor baseRenderer).1
        = ((Renderer.destructor baseRenderer).1, [])
    ∧ (Renderer.destructor baseRenderer).2
        = [EglEvent.makeCurrentNoContext, EglEvent.destroyContext 2,
           EglEvent.destroySurface 3, EglEvent.terminateDisplay 1] := by
  have h := C9_teardown baseRenderer (by simp [baseRenderer])
  simpa [baseRenderer] using h

/-- Counterexample to C8 as stated: on a square 100 x 100 surface a
pointer-down at pixel (0, 0) creates a model whose world-space center is
`(-5/4, 2)`, but the top-left extent of the visible area (half-extents
`kProjectionHalfHeight * (W/H)` and `kProjectionHalfHeight`) is `(-2, 2)`:
the horizontal coordinates differ. -/
theorem C8_counterexample :
    (Renderer.motionStep true constantLoader baseRenderer ⟨MotionAction.down, 0, 0⟩).models_
      = [Model.mk (robotVertices (-5/4) 2 (1/10000)) quadIndices (some 7)]
    ∧ modelCenterX (Model.mk (robotVertices (-5/4) 2 (1/10000)) quadIndices (some 7)) = -5/4
    ∧ modelCenterY (Model.mk (robotVertices (-5/4) 2 (1/10000)) quadIndices (some 7)) = 2
    ∧ -(kProjectionHalfHeight * ((100 : ℚ) / (100 : ℚ))) = -2
    ∧ modelCenterX (Model.mk (robotVertices (-5/4) 2 (1/10000)) quadIndices (some 7))
        ≠ -(kProjectionHalfHeight * ((100 : ℚ) / (100 : ℚ))) := by
  refine ⟨?_, ?_, ?_, ?_, ?_⟩
  · simp [Renderer.motionStep, Renderer.drawRobotInPosition, Renderer.getOrLoadTexture,
      baseRenderer, constantLoader, screenToWorldX, screenToWorldY, robotVertices]
    norm_num
  · norm_num [modelCenterX, robotVertices]
  · norm_num [modelCenterY, robotVertices]
  · norm_num [kProjectionHalfHeight]
  · norm_num [modelCenterX, robotVertices, kProjectionHalfHeight]

/-- Claim C8 (amended): a pointer-down at the exact center pixel maps to
world-space center (0, 0); a pointer-down at pixel (0, 0) maps to the fixed
point `(-5/4, 2)` — the top-left corner of the hard-coded mapped rectangle
`[-5/4, 5/4] x [-2, 2]` — whose vertical coordinate is the visible top extent
and whose horizontal coordinate equals the visible left extent
`-(kProjectionHalfHeight * W/H)` exactly when the aspect ratio `W/H` is
`5/8`; and every successful pointer-down creates a model centered at the
mapped point at the current counter depth. -/
theorem C8_pointer_mapping_amended (W H : Int)
    (hW : (W : ℚ) ≠ 0) (hH : (H : ℚ) ≠ 0) :
    (screenToWorldX W ((W : ℚ) / 2) = 0 ∧ screenToWorldY H ((H : ℚ) / 2) = 0)
    ∧ (screenToWorldX W 0 = -5/4 ∧ screenToWorldY H 0 = kProjectionHalfHeight)
    ∧ (screenToWorldX W 0 = -(kProjectionHalfHeight * ((W : ℚ) / (H : ℚ)))
        ↔ (W : ℚ) / (H : ℚ) = 5/8)
    ∧ ∀ (amOk : Bool) (loader : String → Option Nat) (s : Renderer) (x y z : ℚ),
        (Renderer.getOrLoadTexture amOk loader s.textureCache_ "android_robot.png").result.isSome
        → ∃ m : Model,
            (Renderer.drawRobotInPosition amOk loader s x y z).models_ = s.models_ ++ [m]
            ∧ modelCenterX m = x ∧ modelCenterY m = y ∧ modelDepth m = z := by
  refine ⟨⟨?_, ?_⟩, ⟨?_, ?_⟩, ?_, ?_⟩
  · field_simp [screenToWorldX]
    ring
  · field_simp [screenToWorldY]
    ring
  · norm_num [screenToWorldX]
  · norm_num [screenToWorldY, kProjectionHalfHeight]
  · rw [show screenToWorldX W 0 = -5/4 by norm_num [screenToWorldX]]
    simp only [kProjectionHalfHeight]
    constructor <;> intro hiff <;> linarith
  · intro amOk loader s x y z hres
    obtain ⟨t, ht⟩ := Option.isSome_iff_exists.mp hres
    refine ⟨Model.mk (robotVertices x y z) quadIndices (some t), ?_, ?_, ?_, ?_⟩
    · simp [Renderer.drawRobotInPosition, ht]
    · simp [modelCenterX, robotVertices]
      ring
    · simp [modelCenterY, robotVertices]
      ring
    · rfl


/-- Witness for C8 (amended), at a 800 x 1280 surface (aspect ratio 5/8). -/
theorem C8_pointer_mapping_amended_witness :
    (((800 : Int) : ℚ) ≠ 0) ∧ (((1280 : Int) : ℚ) ≠ 0)
    ∧ screenToWorldX 800 (((800 : Int) : ℚ) / 2) = 0
    ∧ screenToWorldY 1280 (((1280 : Int) : ℚ) / 2) = 0
    ∧ (screenToWorldX 800 0
        = -(kProjectionHalfHeight * (((800 : Int) : ℚ) / ((1280 : Int) : ℚ)))
       ↔ ((800 : Int) : ℚ) / ((1280 : Int) : ℚ) = 5/8) := by
  have h := C8_pointer_mapping_amended 800 1280 (by norm_num) (by norm_num)
  exact ⟨by norm_num, by norm_num, h.1.1, h.1.2, h.2.2.1⟩

theorem getOrLoadTexture_hit (amOk : Bool) (loader : String → Option Nat)
    (cache : List (String × Nat)) (k : String) (t : Nat)
    (h : cache.lookup k = some t) :
    Renderer.getOrLoadTexture amOk loader cache k = ⟨some t, cache, []⟩ := by
  simp [Renderer.getOrLoadTexture, h]

theorem getOrLoadTexture_miss_fail (loader : String → Option Nat)
    (cache : List (String × Nat)) (k : String)
    (hmiss : cache.lookup k = none) (hfail : loader k = none) :
    Renderer.getOrLoadTexture true loader cache k = ⟨none, cache, [k]⟩ := by
  simp [Renderer.getOrLoadTexture, hmiss, hfail]

theorem getOrLoadTexture_miss_success (loader : String → Option Nat)
    (cache : List (String × Nat)) (k : String) (t : Nat)
    (hmiss : cache.lookup k = none) (hload : loader k = some t) :
    Renderer.getOrLoadTexture true loader cache k = ⟨some t, (k, t) :: cache, [k]⟩ := by
  simp [Renderer.getOrLoadTexture, hmiss, hload]

theorem getOrLoadTexture_lookup_mono (amOk : Bool) (loader : String → Option Nat)
    (cache : List (String × Nat)) (k k' : String) (t : Nat)
    (h : cache.lookup k' = some t) :
    (Renderer.getOrLoadTexture amOk loader cache k).cache.lookup k' = some t := by
  unfold Renderer.getOrLoadTexture
  cases hk : cache.lookup k with
  | some t2 => simpa using h
  | none =>
    cases amOk with
    | false => simpa using h
    | true =>
      cases hl : loader k with
      | none => simpa using h
      | some t2 =>
        have hne : k' ≠ k := by
          intro he
          rw [he, hk] at h
          cases h
        have hb : (k' == k) = false := beq_eq_false_iff_ne.mpr hne
        simp [List.lookup, hb, h]

theorem getOrLoadTexture_isSome_mono (amOk : Bool) (loader : String → Option Nat)
    (cache : List (String × Nat)) (k k' : String)
    (h : (cache.lookup k').isSome) :
    ((Renderer.getOrLoadTexture amOk loader cache k).cache.lookup k').isSome := by
  obtain ⟨t, ht⟩ := Option.isSome_iff_exists.mp h
  rw [getOrLoadTexture_lookup_mono amOk loader cache k k' t ht]
  rfl

theorem getOrLoadTexture_calls_all_eq (amOk : Bool) (loader : String → Option Nat)
    (cache : List (String × Nat)) (k : String) :
    ∀ x ∈ (Renderer.getOrLoadTexture amOk loader cache k).loaderCalls, x = k := by
  unfold Renderer.getOrLoadTexture
  cases hk : cache.lookup k with
  | some t => simp
  | none =>
    cases amOk with
    | false => simp
    | true =>
      cases hl : loader k with
      | none => simp
      | some t => simp

theorem runRequests_count_zero_of_cached (amOk : Bool) (loader : String → Option Nat)
    (reqs : List String) :
    ∀ (cache : List (String × Nat)) (k : String), (cache.lookup k).isSome →
    (Renderer.runRequests amOk loader reqs cache).2.count k = 0 := by
  induction reqs with
  | nil => intro cache k _; simp [Renderer.runRequests]
  | cons r rs ih =>
    intro cache k h
    simp only [Renderer.runRequests, List.count_append]
    have h1 : (Renderer.getOrLoadTexture amOk loader cache r).loaderCalls.count k = 0 := by
      by_cases hrk : r = k
      · subst hrk
        obtain ⟨t, ht⟩ := Option.isSome_iff_exists.mp h
        rw [getOrLoadTexture_hit amOk loader cache r t ht]
        rfl
      · refine List.count_eq_zero.mpr fun hmem => hrk ?_
        exact (getOrLoadTexture_calls_all_eq amOk loader cache r k hmem).symm
    have h2 := ih (Renderer.getOrLoadTexture amOk loader cache r).cache k
      (getOrLoadTexture_isSome_mono amOk loader cache r k h)
    omega

theorem runRequests_count_le_one (loader : String → Option Nat)
    (htotal : ∀ k, (loader k).isSome) (reqs : List String) :
    ∀ (cache : List (String × Nat)) (k : String),
    (Renderer.runRequests true loader reqs cache).2.count k ≤ 1 := by
  induction reqs with
  | nil => intro cache k; simp [Renderer.runRequests]
  | cons r rs ih =>
    intro cache k
    simp only [Renderer.runRequests, List.count_append]
    by_cases hrk : r = k
    · subst hrk
      cases hc : cache.lookup r with
      | some t =>
        rw [getOrLoadTexture_hit true loader cache r t hc]
        have h2 := runRequests_count_zero_of_cached true loader rs cache r
          (by rw [hc]; rfl)
        simp [h2]
      | none =>
        obtain ⟨t, ht⟩ := Option.isSome_iff_exists.mp (htotal r)
        rw [getOrLoadTexture_miss_success loader cache r t hc ht]
        have h2 := runRequests_count_zero_of_cached true loader rs ((r, t) :: cache) r
          (by simp [List.lookup])
        simp [h2, List.count_cons]
    · have h1 : (Renderer.getOrLoadTexture true loader cache r).loaderCalls.count k = 0 := by
        refine List.count_eq_zero.mpr fun hmem => hrk ?_
        exact (getOrLoadTexture_calls_all_eq true loader cache r k hmem).symm
      have h2 := ih (Renderer.getOrLoadTexture true loader cache r).cache k
      omega

theorem getOrLoadTexture_result_cached (loader : String → Option Nat)
    (cache : List (String × Nat)) (k : String) (t : Nat)
    (h : (Renderer.getOrLoadTexture true loader cache k).result = some t) :
    (Renderer.getOrLoadTexture true loader cache k).cache.lookup k = some t := by
  unfold Renderer.getOrLoadTexture at h ⊢
  cases hk : cache.lookup k with
  | some t2 =>
    rw [hk] at h
    simp at h
    simpa [hk] using h
  | none =>
    rw [hk] at h
    cases hl : loader k with
    | none => rw [hl] at h; simp at h
    | some t2 =>
      rw [hl] at h
      simp at h
      simp [List.lookup, h]


/-- Counterexample to C1 as stated: when the loader fails, the cache is left
unmodified, so a second request for the same key invokes the loader again —
two loader calls for one key across a two-request sequence, not at most
one. -/
theorem C1_counterexample_retry_after_failure :
    (Renderer.runRequests true failingLoader ["k", "k"] []).2.count "k" = 2
    ∧ ¬ (Renderer.runRequests true failingLoader ["k", "k"] []).2.count "k" ≤ 1 :=
  ⟨by decide, by decide⟩

/-- Claim C1 (amended): on a cache hit `getOrLoadTexture` returns the cached
shared handle, calls no loader, and leaves the cache unchanged; on a miss
(with the asset manager available) it calls the loader exactly once — on
failure the cache is unmodified and null is returned, on success the result
is inserted; cached entries are never rebound, so every later request for a
key returns the identical underlying resource; and provided the loader
succeeds whenever called, any sequence of requests issues at most one loader
call per key. (The original "at most once across any sequence" fails when a
load fails and a later request retries, per the counterexample.) -/
theorem C1_texture_cache_amended :
    (∀ (amOk : Bool) (loader : String → Option Nat) (cache : List (String × Nat))
        (k : String) (t : Nat), cache.lookup k = some t →
      Renderer.getOrLoadTexture amOk loader cache k = ⟨some t, cache, []⟩)
    ∧ (∀ (loader : String → Option Nat) (cache : List (String × Nat)) (k : String),
        cache.lookup k = none → loader k = none →
      Renderer.getOrLoadTexture true loader cache k = ⟨none, cache, [k]⟩)
    ∧ (∀ (loader : String → Option Nat) (cache : List (String × Nat)) (k : String) (t : Nat),
        cache.lookup k = none → loader k = some t →
      Renderer.getOrLoadTexture true loader cache k = ⟨some t, (k, t) :: cache, [k]⟩)
    ∧ (∀ (amOk : Bool) (loader : String → Option Nat) (cache : List (String × Nat))
        (k k' : String) (t : Nat), cache.lookup k' = some t →
      (Renderer.getOrLoadTexture amOk loader cache k).cache.lookup k' = some t)
    ∧ (∀ (loader : String → Option Nat) (cache : List (String × Nat)) (k : String) (t : Nat),
        (Renderer.getOrLoadTexture true loader cache k).result = some t →
      (Renderer.getOrLoadTexture true loader cache k).cache.lookup k = some t)
    ∧ (∀ loader : String → Option Nat, (∀ k, (loader k).isSome) →
        ∀ (reqs : List String) (cache : List (String × Nat)) (k : String),
      (Renderer.runRequests true loader reqs cache).2.count k ≤ 1) :=
  ⟨getOrLoadTexture_hit, getOrLoadTexture_miss_fail, getOrLoadTexture_miss_success,
    getOrLoadTexture_lookup_mono, getOrLoadTexture_result_cached,
    fun loader htotal reqs => runRequests_count_le_one loader htotal reqs⟩

/-- Witness for C1 (amended): concrete hit, miss-failure, miss-success and
at-most-one-call-per-key instances. -/
theorem C1_texture_cache_amended_witness :
    ([("a", 5)].lookup "a" = some (5 : Nat))
    ∧ Renderer.getOrLoadTexture true constantLoader [("a", 5)] "a" = ⟨some 5, [("a", 5)], []⟩
    ∧ (([] : List (String × Nat)).lookup "a" = none)
    ∧ failingLoader "a" = none
    ∧ Renderer.getOrLoadTexture true failingLoader [] "a" = ⟨none, [], ["a"]⟩
    ∧ constantLoader "a" = some 7
    ∧ Renderer.getOrLoadTexture true constantLoader [] "a" = ⟨some 7, [("a", 7)], ["a"]⟩
    ∧ (∀ k, (constantLoader k).isSome)
    ∧ (Renderer.runRequests true constantLoader ["a", "a", "b"] []).2.count "a" ≤ 1 :=
  ⟨by decide,
    C1_texture_cache_amended.1 true constantLoader [("a", 5)] "a" 5 (by decide),
    by decide,
    rfl,
    C1_texture_cache_amended.2.1 failingLoader [] "a" (by decide) rfl,
    rfl,
    C1_texture_cache_amended.2.2.1 constantLoader [] "a" 7 (by decide) rfl,
    fun _ => rfl,
    C1_texture_cache_amended.2.2.2.2.2 constantLoader (fun _ => rfl) ["a", "a", "b"] [] "a"⟩

theorem motionStep_counter (amOk : Bool) (loader : String → Option Nat)
    (t : Renderer) (ev : MotionEvent) :
    (Renderer.motionStep amOk loader t ev).counter
      = t.counter + (if ev.action.isDown then 1/100000 else 0) := by
  cases hev : ev.action <;>
    simp [Renderer.motionStep, hev, MotionAction.isDown, Renderer.drawRobotInPosition] <;>
    cases hres : (Renderer.getOrLoadTexture amOk loader t.textureCache_
      "android_robot.png").result <;>
    simp [hres]

theorem motionStep_spec (amOk : Bool) (loader : String → Option Nat)
    (s : Renderer) (ev : MotionEvent) :
    ∃ new : List Model,
      (Renderer.motionStep amOk loader s ev).models_ = s.models_ ++ new
      ∧ (∀ m ∈ new, modelDepth m = s.counter)
      ∧ s.counter ≤ (Renderer.motionStep amOk loader s ev).counter
      ∧ (new ≠ [] → s.counter < (Renderer.motionStep amOk loader s ev).counter)
      ∧ new.Pairwise (fun a b => modelDepth a < modelDepth b) := by
  cases hev : ev.action with
  | down | pointerDown =>
    cases hres : (Renderer.getOrLoadTexture amOk loader s.textureCache_
        "android_robot.png").result with
    | none =>
      refine ⟨[], ?_, by simp, ?_, by simp, List.Pairwise.nil⟩
      · simp [Renderer.motionStep, hev, Renderer.drawRobotInPosition, hres]
      · simp [Renderer.motionStep, hev, Renderer.drawRobotInPosition, hres]
    | some tex =>
      refine ⟨[Model.mk (robotVertices (screenToWorldX s.width_ ev.x)
          (screenToWorldY s.height_ ev.y) s.counter) quadIndices (some tex)],
        ?_, ?_, ?_, ?_, List.pairwise_singleton _ _⟩
      · simp [Renderer.motionStep, hev, Renderer.drawRobotInPosition, hres]
      · intro m hm
        rw [List.mem_singleton.mp hm]
        rfl
      · simp [Renderer.motionStep, hev, Renderer.drawRobotInPosition, hres]
      · intro _
        simp [Renderer.motionStep, hev, Renderer.drawRobotInPosition, hres]
  | cancel =>
    exact ⟨[], by simp [Renderer.motionStep, hev], by simp,
      by simp [Renderer.motionStep, hev], by simp, List.Pairwise.nil⟩
  | up =>
    exact ⟨[], by simp [Renderer.motionStep, hev], by simp,
      by simp [Renderer.motionStep, hev], by simp, List.Pairwise.nil⟩
  | pointerUp =>
    exact ⟨[], by simp [Renderer.motionStep, hev], by simp,
      by simp [Renderer.motionStep, hev], by simp, List.Pairwise.nil⟩
  | move =>
    exact ⟨[], by simp [Renderer.motionStep, hev], by simp,
      by simp [Renderer.motionStep, hev], by simp, List.Pairwise.nil⟩
  | unknown code =>
    exact ⟨[], by simp [Renderer.motionStep, hev], by simp,
      by simp [Renderer.motionStep, hev], by simp, List.Pairwise.nil⟩


theorem created_refl (s : Renderer) :
    ∃ new : List Model, s.models_ = s.models_ ++ new
      ∧ new.Pairwise (fun a b => modelDepth a < modelDepth b)
      ∧ (∀ m ∈ new, s.counter ≤ modelDepth m ∧ modelDepth m < s.counter)
      ∧ s.counter ≤ s.counter :=
  ⟨[], by simp, List.Pairwise.nil, by simp, le_refl _⟩

theorem created_trans (s0 s1 s2 : Renderer)
    (h1 : ∃ n : List Model, s1.models_ = s0.models_ ++ n
      ∧ n.Pairwise (fun a b => modelDepth a < modelDepth b)
      ∧ (∀ m ∈ n, s0.counter ≤ modelDepth m ∧ modelDepth m < s1.counter)
      ∧ s0.counter ≤ s1.counter)
    (h2 : ∃ n : List Model, s2.models_ = s1.models_ ++ n
      ∧ n.Pairwise (fun a b => modelDepth a < modelDepth b)
      ∧ (∀ m ∈ n, s1.counter ≤ modelDepth m ∧ modelDepth m < s2.counter)
      ∧ s1.counter ≤ s2.counter) :
    ∃ n : List Model, s2.models_ = s0.models_ ++ n
      ∧ n.Pairwise (fun a b => modelDepth a < modelDepth b)
      ∧ (∀ m ∈ n, s0.counter ≤ modelDepth m ∧ modelDepth m < s2.counter)
      ∧ s0.counter ≤ s2.counter := by
  obtain ⟨n1, e1, p1, b1, c1⟩ := h1
  obtain ⟨n2, e2, p2, b2, c2⟩ := h2
  refine ⟨n1 ++ n2, ?_, ?_, ?_, le_trans c1 c2⟩
  · rw [e2, e1, List.append_assoc]
  · rw [List.pairwise_append]
    exact ⟨p1, p2, fun a ha b hb => lt_of_lt_of_le (b1 a ha).2 (b2 b hb).1⟩
  · intro m hm
    rcases List.mem_append.mp hm with h | h
    · exact ⟨(b1 m h).1, lt_of_lt_of_le (b1 m h).2 c2⟩
    · exact ⟨le_trans c1 (b2 m h).1, (b2 m h).2⟩

theorem motionStep_created (amOk : Bool) (loader : String → Option Nat)
    (s : Renderer) (ev : MotionEvent) :
    ∃ n : List Model,
      (Renderer.motionStep amOk loader s ev).models_ = s.models_ ++ n
      ∧ n.Pairwise (fun a b => modelDepth a < modelDepth b)
      ∧ (∀ m ∈ n, s.counter ≤ modelDepth m
          ∧ modelDepth m < (Renderer.motionStep amOk loader s ev).counter)
      ∧ s.counter ≤ (Renderer.motionStep amOk loader s ev).counter := by
  obtain ⟨new, e, hdep, hle, hlt, hpw⟩ := motionStep_spec amOk loader s ev
  refine ⟨new, e, hpw, ?_, hle⟩
  intro m hm
  have hne : new ≠ [] := List.ne_nil_of_mem hm
  rw [hdep m hm]
  exact ⟨le_refl _, hlt hne⟩

theorem foldl_motionStep_created (amOk : Bool) (loader : String → Option Nat)
    (evs : List MotionEvent) :
    ∀ s : Renderer,
    ∃ n : List Model,
      (evs.foldl (Renderer.motionStep amOk loader) s).models_ = s.models_ ++ n
      ∧ n.Pairwise (fun a b => modelDepth a < modelDepth b)
      ∧ (∀ m ∈ n, s.counter ≤ modelDepth m
          ∧ modelDepth m < (evs.foldl (Renderer.motionStep amOk loader) s).counter)
      ∧ s.counter ≤ (evs.foldl (Renderer.motionStep amOk loader) s).counter := by
  induction evs with
  | nil => intro s; exact created_refl s
  | cons e es ih =>
    intro s
    rw [List.foldl_cons]
    exact created_trans s (Renderer.motionStep amOk loader s e) _
      (motionStep_created amOk loader s e) (ih (Renderer.motionStep amOk loader s e))

theorem foldl_const_id (s1 : Renderer) (ks : List KeyEvent) :
    ks.foldl (fun st _ => st) s1 = s1 := by
  induction ks with
  | nil => rfl
  | cons k ks ih => exact ih

theorem handleInput_created (amOk : Bool) (loader : String → Option Nat)
    (s : Renderer) (buf : Option InputBuffer) :
    ∃ n : List Model,
      (Renderer.handleInput amOk loader s buf).models_ = s.models_ ++ n
      ∧ n.Pairwise (fun a b => modelDepth a < modelDepth b)
      ∧ (∀ m ∈ n, s.counter ≤ modelDepth m
          ∧ modelDepth m < (Renderer.handleInput amOk loader s buf).counter)
      ∧ s.counter ≤ (Renderer.handleInput amOk loader s buf).counter := by
  cases buf with
  | none => exact created_refl s
  | some b =>
    have hk : Renderer.handleInput amOk loader s (some b)
        = b.motionEvents.foldl (Renderer.motionStep amOk loader) s := by
      simp [Renderer.handleInput, foldl_const_id]
    rw [hk]
    exact foldl_motionStep_created amOk loader b.motionEvents s

theorem runFrames_created (amOk : Bool) (loader : String → Option Nat)
    (bufs : List (Option InputBuffer)) :
    ∀ s : Renderer,
    ∃ n : List Model,
      (Renderer.runFrames amOk loader s bufs).models_ = s.models_ ++ n
      ∧ n.Pairwise (fun a b => modelDepth a < modelDepth b)
      ∧ (∀ m ∈ n, s.counter ≤ modelDepth m
          ∧ modelDepth m < (Renderer.runFrames amOk loader s bufs).counter)
      ∧ s.counter ≤ (Renderer.runFrames amOk loader s bufs).counter := by
  induction bufs with
  | nil => intro s; exact created_refl s
  | cons b bs ih =>
    intro s
    have he : Renderer.runFrames amOk loader s (b :: bs)
        = Renderer.runFrames amOk loader (Renderer.handleInput amOk loader s b) bs := rfl
    rw [he]
    exact created_trans s (Renderer.handleInput amOk loader s b) _
      (handleInput_created amOk loader s b) (ih (Renderer.handleInput amOk loader s b))


/-- Claim C7: the depth counter never decreases across any run of input
frames, each pointer-down event strictly increases it by the fixed increment
(and no other event changes it), and the models created by input handling
during a run carry strictly increasing — hence pairwise distinct — depth
values. -/
theorem C7_depth_counter_monotone_distinct (amOk : Bool)
    (loader : String → Option Nat) (s : Renderer) (bufs : List (Option InputBuffer)) :
    (∀ (t : Renderer) (ev : MotionEvent),
        (Renderer.motionStep amOk loader t ev).counter
          = t.counter + (if ev.action.isDown then 1/100000 else 0))
    ∧ s.counter ≤ (Renderer.runFrames amOk loader s bufs).counter
    ∧ ∃ new : List Model,
        (Renderer.runFrames amOk loader s bufs).models_ = s.models_ ++ new
        ∧ (new.map modelDepth).Sorted (· < ·)
        ∧ (new.map modelDepth).Pairwise (· ≠ ·) := by
  obtain ⟨n, e, p, b, c⟩ := runFrames_created amOk loader bufs s
  refine ⟨motionStep_counter amOk loader, c, n, e, ?_, ?_⟩
  · exact List.pairwise_map.mpr p
  · exact (List.pairwise_map.mpr p).imp ne_of_lt

end App
